import Mathlib

/-!
Verification development for the wio crate (retep998/wio-rs).

This file gives a shallow embedding of the two core components of the
crate and proves properties of them:

* src/vsb.rs   - VariableSizedBox, a manually managed resizable heap
                 allocation with bounds-checked sub-slice extraction;
* src/com.rs   - ComPtr, an owning wrapper over a reference-counted COM
                 interface pointer, together with the from_fn factory
                 initialization pattern (the com_ptr_from_fn macro).

Modelling conventions:

* usize is modelled as Nat together with an explicit modulus
  USIZE = 2^64 wherever the Rust code performs wrapping arithmetic
  (pointer::wrapping_add) or overflow checks (usize::checked_mul).
* Raw pointers are modelled as Nat addresses; the null pointer is 0.
* A VariableSizedBox is modelled by its base address and the list of
  bytes it owns; the size field of the Rust struct always equals the
  length of the live allocation (every constructor and resize maintains
  this), so the model folds the size field into the byte list length.
* Operations that call the global allocator receive the address chosen
  by the allocator as an explicit argument (named fresh).  Allocation
  failure aborts the process via handle_alloc_error and never returns,
  so the model covers the returning (successful-allocation) executions.
* Rust panics that are reachable from ordinary arguments (unwrap inside
  try_slice_from_count, division by zero in the byte-based accessors,
  expect inside the from_fn macro) are modelled explicitly with the
  PanicOr type below.
-/

/-- Result of a Rust computation that can panic: either a panic occurred,
or the computation finished with a value. -/
inductive PanicOr (α : Type) where
  | panics : PanicOr α
  | ok : α → PanicOr α
deriving DecidableEq, Repr

/-- The number of values of type usize; the crate targets 64-bit Windows. -/
def USIZE : Nat := 2 ^ 64

/-- Rust usize::checked_mul: none exactly when the product overflows. -/
def checked_mul (a b : Nat) : Option Nat :=
  if a * b < USIZE then some (a * b) else none

/-- Address arithmetic of pointer::wrapping_add, in bytes: wraps around
the address space. -/
def wrapAdd (p n : Nat) : Nat := (p + n) % USIZE

namespace Wio

/-- Model of VariableSizedBox<T> from src/vsb.rs.  base is the address of
the backing allocation (a dangling, never dereferenced value for the
empty sentinel) and bytes is the content of the allocation; the size
field of the Rust struct equals bytes.length. -/
structure VariableSizedBox where
  base : Nat
  bytes : List Nat
deriving DecidableEq, Repr

namespace VariableSizedBox

/-- The size field of the Rust struct: length of the allocation in bytes. -/
def size (b : VariableSizedBox) : Nat := b.bytes.length

/-- VariableSizedBox::len (vsb.rs lines 95-97): returns self.size. -/
def len (b : VariableSizedBox) : Nat := b.size

/-- The Default impl (vsb.rs lines 266-274): size 0 and a dangling
NonNull pointer, whose address is the alignment of T. -/
def default (align : Nat) : VariableSizedBox :=
  { base := align, bytes := [] }

/-- VariableSizedBox::new (vsb.rs lines 23-37): size 0 yields the default
sentinel; otherwise alloc_zeroed produces a zero-filled allocation at the
address fresh chosen by the allocator. -/
def new (align size fresh : Nat) : VariableSizedBox :=
  if size = 0 then default align
  else { base := fresh, bytes := List.replicate size 0 }

/-- VariableSizedBox::as_ptr (vsb.rs lines 39-45): null for the sentinel,
otherwise the base address. -/
def as_ptr (b : VariableSizedBox) : Nat :=
  if b.size = 0 then 0 else b.base

/-- VariableSizedBox::as_mut_ptr (vsb.rs lines 47-53): same address rule
as as_ptr. -/
def as_mut_ptr (b : VariableSizedBox) : Nat :=
  if b.size = 0 then 0 else b.base

/-- VariableSizedBox::resize (vsb.rs lines 70-93).  fresh is the address
returned by the allocator on the paths that allocate (the grow path
builds a new zeroed box and copies min(old, new) = old bytes into it;
the shrink path calls realloc, which preserves the leading bytes and may
move the allocation).  When the new size equals the current nonzero
size, no branch is taken and the box is returned unchanged. -/
def resize (align : Nat) (b : VariableSizedBox) (size fresh : Nat) :
    VariableSizedBox :=
  if size = 0 ∨ b.size = 0 then new align size fresh
  else if b.size < size then
    { base := fresh, bytes := b.bytes ++ List.replicate (size - b.size) 0 }
  else if size < b.size then
    { base := fresh, bytes := b.bytes.take size }
  else b

/-- VariableSizedBox::sanitize_ptr (vsb.rs lines 102-105): recomputes the
address of ptr from the base of the box (offset = ptr - as_ptr, result =
as_ptr + offset); the address is unchanged whenever ptr is at or past
as_ptr.  Provenance itself has no observable effect in this model. -/
def sanitize_ptr (b : VariableSizedBox) (p : Nat) : Nat :=
  b.as_ptr + (p - b.as_ptr)

/-- VariableSizedBox::try_slice_from_count (vsb.rs lines 119-129).
p is the field pointer, count the element count, es = size_of::<U>().
Returns the slice as its (start address, element count) pair.  The Rust
guard is a short-circuit conjunction: the first conjunct compares p with
as_ptr; the second calls checked_mul(count, es).unwrap(), which panics
on overflow; the remaining conjuncts compare the wrapping end address
p.wrapping_add(count) with p and with as_ptr + size. -/
def try_slice_from_count (b : VariableSizedBox) (p count es : Nat) :
    PanicOr (Option (Nat × Nat)) :=
  if b.as_ptr ≤ p then
    match checked_mul count es with
    | some m =>
      if m ≤ b.size ∧ p ≤ wrapAdd p (count * es) ∧
          wrapAdd p (count * es) ≤ b.as_ptr + b.size then
        .ok (some (b.sanitize_ptr p, count))
      else
        .ok none
    | none => .panics
  else
    .ok none

/-- VariableSizedBox::slice_from_count (vsb.rs lines 135-137):
try_slice_from_count(...).unwrap(), so a none result becomes a panic. -/
def slice_from_count (b : VariableSizedBox) (p count es : Nat) :
    PanicOr (Nat × Nat) :=
  match b.try_slice_from_count p count es with
  | .ok (some s) => .ok s
  | .ok none => .panics
  | .panics => .panics

/-- VariableSizedBox::try_slice_from_count_mut (vsb.rs lines 143-157):
same guard as the shared variant, phrased with as_mut_ptr. -/
def try_slice_from_count_mut (b : VariableSizedBox) (p count es : Nat) :
    PanicOr (Option (Nat × Nat)) :=
  if b.as_mut_ptr ≤ p then
    match checked_mul count es with
    | some m =>
      if m ≤ b.size ∧ p ≤ wrapAdd p (count * es) ∧
          wrapAdd p (count * es) ≤ b.as_mut_ptr + b.size then
        .ok (some (b.as_mut_ptr + (p - b.as_mut_ptr), count))
      else
        .ok none
    | none => .panics
  else
    .ok none

/-- VariableSizedBox::slice_from_count_mut (vsb.rs lines 163-165). -/
def slice_from_count_mut (b : VariableSizedBox) (p count es : Nat) :
    PanicOr (Nat × Nat) :=
  match b.try_slice_from_count_mut p count es with
  | .ok (some s) => .ok s
  | .ok none => .panics
  | .panics => .panics

/-- VariableSizedBox::try_slice_from_bytes (vsb.rs lines 171-174):
computes count = bytes / size_of::<U>() with Rust integer division,
which panics when size_of::<U>() = 0, then delegates. -/
def try_slice_from_bytes (b : VariableSizedBox) (p bytes es : Nat) :
    PanicOr (Option (Nat × Nat)) :=
  if es = 0 then .panics
  else b.try_slice_from_count p (bytes / es) es

/-- VariableSizedBox::slice_from_bytes (vsb.rs lines 180-183). -/
def slice_from_bytes (b : VariableSizedBox) (p bytes es : Nat) :
    PanicOr (Nat × Nat) :=
  if es = 0 then .panics
  else b.slice_from_count p (bytes / es) es

/-- VariableSizedBox::try_slice_from_bytes_mut (vsb.rs lines 189-196). -/
def try_slice_from_bytes_mut (b : VariableSizedBox) (p bytes es : Nat) :
    PanicOr (Option (Nat × Nat)) :=
  if es = 0 then .panics
  else b.try_slice_from_count_mut p (bytes / es) es

/-- VariableSizedBox::slice_from_bytes_mut (vsb.rs lines 202-205). -/
def slice_from_bytes_mut (b : VariableSizedBox) (p bytes es : Nat) :
    PanicOr (Nat × Nat) :=
  if es = 0 then .panics
  else b.slice_from_count_mut p (bytes / es) es

end VariableSizedBox

/-- Mock COM object used to observe the reference-counting behaviour of
ComPtr (src/com.rs): refs is the current reference count of the
underlying object, addRefs and releases count the AddRef and Release
calls issued through the IUnknown vtable, and warnings counts the
diagnostics emitted through the log_if_feature macro (com.rs lines
16-28, with the log feature enabled). -/
structure MockObj where
  refs : Nat
  addRefs : Nat
  releases : Nat
  warnings : Nat
deriving DecidableEq, Repr

namespace MockObj

/-- Effect of one IUnknown::AddRef call on the mock object. -/
def addRef (s : MockObj) : MockObj :=
  { s with refs := s.refs + 1, addRefs := s.addRefs + 1 }

/-- Effect of one IUnknown::Release call on the mock object. -/
def release (s : MockObj) : MockObj :=
  { s with refs := s.refs - 1, releases := s.releases + 1 }

/-- Effect of one diagnostic emitted via log_if_feature (com.rs line 77). -/
def warn (s : MockObj) : MockObj :=
  { s with warnings := s.warnings + 1 }

end MockObj

/-- Model of ComPtr<T> (com.rs lines 86-87): a NonNull<T>, carried as its
nonzero raw address. -/
structure ComPtr where
  raw : Nat
deriving DecidableEq, Repr

namespace ComPtr

/-- ComPtr::new (com.rs lines 92-97): adopts the pointer without calling
AddRef or Release (the function is pure in the mock state); null maps to
none via NonNull::new. -/
def new (p : Nat) : Option ComPtr :=
  if p = 0 then none else some ⟨p⟩

/-- ComPtr::from_raw (com.rs lines 102-107): adopts the pointer without
calling AddRef or Release; panics on null via expect. -/
def from_raw (p : Nat) : PanicOr ComPtr :=
  if p = 0 then .panics else .ok ⟨p⟩

/-- The Clone impl (com.rs lines 174-184): one AddRef on the underlying
object, then adoption of the same raw pointer. -/
def clone (s : MockObj) (c : ComPtr) : MockObj × ComPtr :=
  (s.addRef, ⟨c.raw⟩)

/-- The Drop impl (com.rs lines 190-196): one Release on the underlying
object. -/
def drop (s : MockObj) (_c : ComPtr) : MockObj :=
  s.release

/-- ComPtr::from_fn (com.rs lines 121-130), which expands the
com_ptr_from_fn macro (com.rs lines 41-83) at one GUID/pointer pair.
The initializer F runs against the mock object and yields the final
state, the returned HRESULT and the final value of the output slot
(which starts as null).  The macro then wraps the slot with ComPtr::new
and matches on the status: status 0 with a null slot hits the expect
(a panic); a nonzero status with a non-null slot emits a diagnostic and
the local Option<ComPtr> is dropped at the end of the block, issuing one
Release; the nonzero status itself is returned unchanged as the error. -/
def from_fn (F : MockObj → MockObj × Int × Nat) (s : MockObj) :
    MockObj × PanicOr (Except Int ComPtr) :=
  let r := F s
  let s1 := r.1
  let status := r.2.1
  let slot := r.2.2
  match ComPtr.new slot with
  | some c =>
    if status = 0 then (s1, .ok (.ok c))
    else (ComPtr.drop s1.warn c, .ok (.error status))
  | none =>
    if status = 0 then (s1, .panics)
    else (s1, .ok (.error status))

end ComPtr

/-! Helper lemmas shared by several theorems below. -/

theorem checked_mul_some (a b : Nat) (h : a * b < USIZE) :
    checked_mul a b = some (a * b) := if_pos h

theorem checked_mul_none (a b : Nat) (h : ¬a * b < USIZE) :
    checked_mul a b = none := if_neg h

/-- With the pointer check passed and no multiplication overflow,
try_slice_from_count reduces to its range test. -/
theorem tsfc_guard_reduce (b : VariableSizedBox) (p count es : Nat)
    (h1 : b.as_ptr ≤ p) (h2 : count * es < USIZE) :
    b.try_slice_from_count p count es =
      if count * es ≤ b.size ∧ p ≤ wrapAdd p (count * es) ∧
          wrapAdd p (count * es) ≤ b.as_ptr + b.size then
        .ok (some (b.sanitize_ptr p, count))
      else
        .ok none := by
  unfold VariableSizedBox.try_slice_from_count
  rw [if_pos h1, checked_mul_some _ _ h2]

/-- Success case of try_slice_from_count: the requested range starts at
or after as_ptr, its byte length fits the allocation, and its end stays
at or before as_ptr + size (no address wrap, given that the allocation
itself fits the address space). -/
theorem tsfc_some (b : VariableSizedBox) (p count es : Nat)
    (h1 : b.as_ptr ≤ p) (h2 : count * es ≤ b.size)
    (h3 : p + count * es ≤ b.as_ptr + b.size)
    (hend : b.as_ptr + b.size < USIZE) :
    b.try_slice_from_count p count es = .ok (some (p, count)) := by
  have hm : count * es < USIZE := lt_of_le_of_lt (le_trans h2 (Nat.le_add_left _ _)) hend
  have hw : wrapAdd p (count * es) = p + count * es :=
    Nat.mod_eq_of_lt (lt_of_le_of_lt h3 hend)
  rw [tsfc_guard_reduce b p count es h1 hm, hw,
    if_pos ⟨h2, Nat.le_add_right _ _, h3⟩]
  unfold VariableSizedBox.sanitize_ptr
  rw [Nat.add_sub_cancel' h1]

/-- try_slice_from_count returns none when the field pointer lies below
as_ptr (the first conjunct of the guard fails before the unwrap runs). -/
theorem tsfc_none_low (b : VariableSizedBox) (p count es : Nat)
    (h : p < b.as_ptr) :
    b.try_slice_from_count p count es = .ok none := by
  unfold VariableSizedBox.try_slice_from_count
  rw [if_neg (Nat.not_le.mpr h)]

/-- try_slice_from_count panics when the pointer check passes and
count * es overflows usize: checked_mul yields none and unwrap panics. -/
theorem tsfc_panics (b : VariableSizedBox) (p count es : Nat)
    (h1 : b.as_ptr ≤ p) (h2 : USIZE ≤ count * es) :
    b.try_slice_from_count p count es = .panics := by
  unfold VariableSizedBox.try_slice_from_count
  rw [if_pos h1, checked_mul_none _ _ (Nat.not_lt.mpr h2)]

/-- try_slice_from_count returns none when the pointer check passes, the
multiplication does not overflow, but the range is too large for the
allocation or runs past its end. -/
theorem tsfc_none_out (b : VariableSizedBox) (p count es : Nat)
    (h1 : b.as_ptr ≤ p) (h2 : count * es < USIZE)
    (h3 : b.size < count * es ∨ b.as_ptr + b.size < p + count * es) :
    b.try_slice_from_count p count es = .ok none := by
  rw [tsfc_guard_reduce b p count es h1 h2, if_neg ?_]
  unfold wrapAdd USIZE
  unfold USIZE at h2
  rintro ⟨g1, g2, g3⟩
  rcases h3 with h3 | h3
  · exact absurd g1 (Nat.not_le.mpr h3)
  · omega

/-- The mutable variant has the same guard and result addresses as the
shared variant (as_mut_ptr computes the same address as as_ptr). -/
theorem tsfc_mut_eq (b : VariableSizedBox) (p count es : Nat) :
    b.try_slice_from_count_mut p count es = b.try_slice_from_count p count es := by
  rfl

/-- Unwrapping behaviour of slice_from_count over the try form. -/
theorem sfc_eq_unwrap (b : VariableSizedBox) (p count es : Nat) :
    b.slice_from_count p count es =
      match b.try_slice_from_count p count es with
      | .ok (some s) => .ok s
      | .ok none => .panics
      | .panics => .panics := rfl

/-- A box with an empty byte list is exactly one with size 0. -/
theorem size_eq_zero_iff (b : VariableSizedBox) : b.size = 0 ↔ b.bytes = [] := by
  unfold VariableSizedBox.size
  exact List.length_eq_zero

/-! Claim theorems. -/

/-- C7: VariableSizedBox::new(0) produces the empty sentinel -- as_ptr
returns null, len returns 0, and no allocation is performed (the result
does not depend on any allocator-provided address and equals the default
sentinel) -- and for every n > 0, new(n) produces a box of length n all
of whose n bytes are zero. -/
theorem C7_new_zero_sentinel_and_zeroed (align fresh fresh2 n : Nat) (hn : 0 < n) :
    (VariableSizedBox.new align 0 fresh).as_ptr = 0
    ∧ (VariableSizedBox.new align 0 fresh).len = 0
    ∧ VariableSizedBox.new align 0 fresh = VariableSizedBox.default align
    ∧ VariableSizedBox.new align 0 fresh = VariableSizedBox.new align 0 fresh2
    ∧ (VariableSizedBox.new align n fresh).len = n
    ∧ (VariableSizedBox.new align n fresh).bytes = List.replicate n 0
    ∧ (∀ i, i < n → (VariableSizedBox.new align n fresh).bytes.getD i 1 = 0) := by
  have hn0 : n ≠ 0 := Nat.pos_iff_ne_zero.mp hn
  unfold VariableSizedBox.new VariableSizedBox.as_ptr VariableSizedBox.len
    VariableSizedBox.size VariableSizedBox.default
  simp [hn0]
  intro i hi
  simp [List.getElem?_replicate, hi]

/-- Witness for C7 at align 4, n 3, allocator addresses 16 and 32. -/
theorem C7_witness :
    (VariableSizedBox.new 4 0 16).as_ptr = 0
    ∧ (VariableSizedBox.new 4 0 16).len = 0
    ∧ VariableSizedBox.new 4 0 16 = VariableSizedBox.default 4
    ∧ VariableSizedBox.new 4 0 16 = VariableSizedBox.new 4 0 32
    ∧ (VariableSizedBox.new 4 3 16).len = 3
    ∧ (VariableSizedBox.new 4 3 16).bytes = List.replicate 3 0
    ∧ (∀ i, i < 3 → (VariableSizedBox.new 4 3 16).bytes.getD i 1 = 0) :=
  C7_new_zero_sentinel_and_zeroed 4 16 32 3 (by decide)

/-- C9: for a box of nonzero size L, resize(L) is an identity: no
reallocation path is taken and the box (length, base pointer and bytes)
is returned unchanged. -/
theorem C9_resize_same_size_identity (align fresh : Nat)
    (b : VariableSizedBox) (h : 0 < b.size) :
    VariableSizedBox.resize align b b.size fresh = b := by
  unfold VariableSizedBox.resize
  rw [if_neg, if_neg (lt_irrefl b.size), if_neg (lt_irrefl b.size)]
  rintro (h0 | h0) <;> exact absurd h0 (Nat.pos_iff_ne_zero.mp h)

/-- Witness for C9 on a box of size 2 with an allocator that would hand
out address 99 if it were consulted. -/
theorem C9_witness :
    VariableSizedBox.resize 1 ⟨8, [1, 2]⟩ 2 99 = ⟨8, [1, 2]⟩ :=
  C9_resize_same_size_identity 1 99 ⟨8, [1, 2]⟩ (by decide)

/-- C6: resize growing an allocation preserves the first
min(old, new) = old bytes unchanged, and resize(0) on a nonempty box
yields the empty sentinel: the default value, null as_ptr, length 0 and
no backing bytes. -/
theorem C6_resize_grow_prefix_and_zero_sentinel (align fresh : Nat)
    (b : VariableSizedBox) :
    (∀ sz, b.size < sz →
      ((VariableSizedBox.resize align b sz fresh).bytes.take
          (min b.size sz) = b.bytes.take (min b.size sz)))
    ∧ (0 < b.size →
      VariableSizedBox.resize align b 0 fresh = VariableSizedBox.default align
      ∧ (VariableSizedBox.resize align b 0 fresh).as_ptr = 0
      ∧ (VariableSizedBox.resize align b 0 fresh).len = 0
      ∧ (VariableSizedBox.resize align b 0 fresh).bytes = []) := by
  constructor
  · intro sz hsz
    have hmin : min b.size sz = b.size := Nat.min_eq_left (Nat.le_of_lt hsz)
    rw [hmin]
    by_cases h0 : b.size = 0
    · rw [h0]
      simp
    · have hsz0 : sz ≠ 0 := by
        intro hc
        rw [hc] at hsz
        exact absurd hsz (Nat.not_lt.mpr (Nat.zero_le _))
      unfold VariableSizedBox.resize
      rw [if_neg, if_pos hsz]
      · show (b.bytes ++ List.replicate (sz - b.size) 0).take b.bytes.length
            = b.bytes.take b.bytes.length
        rw [List.take_left, List.take_length]
      · rintro (hc | hc) <;> [exact hsz0 hc; exact h0 hc]
  · intro h
    have : VariableSizedBox.resize align b 0 fresh = VariableSizedBox.default align := by
      unfold VariableSizedBox.resize VariableSizedBox.new
      rw [if_pos (Or.inl rfl), if_pos rfl]
    refine ⟨this, ?_, ?_, ?_⟩ <;> rw [this] <;> rfl

/-- Witness for C6 on the box at address 8 with bytes [3, 4]: grow to 5
bytes with allocator address 16, and shrink to the sentinel. -/
theorem C6_witness :
    ((VariableSizedBox.resize 1 ⟨8, [3, 4]⟩ 5 16).bytes.take (min 2 5)
        = ([3, 4] : List Nat).take (min 2 5))
    ∧ (VariableSizedBox.resize 1 ⟨8, [3, 4]⟩ 0 16 = VariableSizedBox.default 1
      ∧ (VariableSizedBox.resize 1 ⟨8, [3, 4]⟩ 0 16).as_ptr = 0
      ∧ (VariableSizedBox.resize 1 ⟨8, [3, 4]⟩ 0 16).len = 0
      ∧ (VariableSizedBox.resize 1 ⟨8, [3, 4]⟩ 0 16).bytes = []) :=
  ⟨(C6_resize_grow_prefix_and_zero_sentinel 1 16 ⟨8, [3, 4]⟩).1 5 (by decide),
   (C6_resize_grow_prefix_and_zero_sentinel 1 16 ⟨8, [3, 4]⟩).2 (by decide)⟩

/-- C4 counterexample: growing the box at address 8 holding the single
nonzero byte 5 to 3 bytes yields exactly [5, 0, 0] -- the two bytes
beyond the old length are zeroed by the grow path (which allocates with
alloc_zeroed and copies only the old bytes), contradicting the claim
that resize leaves the newly added region unzeroed. -/
theorem C4_counterexample :
    (VariableSizedBox.resize 1 ⟨8, [5]⟩ 3 16).bytes = [5, 0, 0]
    ∧ ((VariableSizedBox.resize 1 ⟨8, [5]⟩ 3 16).bytes.drop 1
        = List.replicate 2 0) := by
  constructor <;> rfl

/-- C4 amended: for every box and every size strictly greater than the
current length, resize zeroes the newly added region beyond the old
length -- the result is exactly the old bytes followed by zeros, because
the grow path allocates zeroed memory and copies only the old bytes. -/
theorem C4_amended_resize_grow_zeroes (align fresh sz : Nat)
    (b : VariableSizedBox) (h : b.size < sz) :
    (VariableSizedBox.resize align b sz fresh).bytes
      = b.bytes ++ List.replicate (sz - b.size) 0 := by
  have hsz0 : sz ≠ 0 := by
    intro hc
    rw [hc] at h
    exact absurd h (Nat.not_lt.mpr (Nat.zero_le _))
  by_cases h0 : b.size = 0
  · have hb : b.bytes = [] := (size_eq_zero_iff b).mp h0
    unfold VariableSizedBox.resize VariableSizedBox.new
    rw [if_pos (Or.inr h0), if_neg hsz0, hb, h0]
    rfl
  · unfold VariableSizedBox.resize
    rw [if_neg, if_pos h]
    rintro (hc | hc) <;> [exact hsz0 hc; exact h0 hc]

/-- Witness for C4 amended: growing [5] to 3 bytes. -/
theorem C4_amended_witness :
    (VariableSizedBox.resize 1 ⟨8, [5]⟩ 3 16).bytes
      = [5] ++ List.replicate 2 0 :=
  C4_amended_resize_grow_zeroes 1 16 3 ⟨8, [5]⟩ (by decide)

/-- C3 counterexample, on the 4-byte box at address 8.  First conjunct:
with the pointer at the base, count 2^63 and element size 2, the product
count * size_of overflows usize and try_slice_from_count panics (the
unwrap of checked_mul) instead of returning none as the claim states.
Second conjunct: with the pointer at base + length = 12 -- outside the
half-open interval [base, base + length) named by the claim -- and count
0, the function returns some empty slice rather than none. -/
theorem C3_counterexample :
    VariableSizedBox.try_slice_from_count ⟨8, [0, 0, 0, 0]⟩ 8 (2 ^ 63) 2
        = PanicOr.panics
    ∧ VariableSizedBox.try_slice_from_count ⟨8, [0, 0, 0, 0]⟩ 12 0 2
        = PanicOr.ok (some (12, 0)) := by
  constructor
  · exact tsfc_panics ⟨8, [0, 0, 0, 0]⟩ 8 (2 ^ 63) 2 (by decide) (by decide)
  · decide

/-- C3 amended: full characterization of try_slice_from_count for a box
whose allocation fits the address space.  The call returns a slice of
exactly count elements at the given pointer when the pointer is at or
past as_ptr and the count * size_of byte range fits inside
[as_ptr, as_ptr + length]; it returns none when the pointer is below
as_ptr, and also when the product fits usize but the range is larger
than the allocation or runs past its end; however, when the pointer
check passes and count * size_of overflows usize, it panics instead of
returning none.  The mutable variant behaves identically. -/
theorem C3_amended_try_slice_characterization (b : VariableSizedBox)
    (p count es : Nat) (hend : b.as_ptr + b.size < USIZE) :
    (b.as_ptr ≤ p → count * es ≤ b.size → p + count * es ≤ b.as_ptr + b.size →
      b.try_slice_from_count p count es = .ok (some (p, count)))
    ∧ (p < b.as_ptr → b.try_slice_from_count p count es = .ok none)
    ∧ (b.as_ptr ≤ p → USIZE ≤ count * es →
      b.try_slice_from_count p count es = .panics)
    ∧ (b.as_ptr ≤ p → count * es < USIZE →
      (b.size < count * es ∨ b.as_ptr + b.size < p + count * es) →
      b.try_slice_from_count p count es = .ok none)
    ∧ b.try_slice_from_count_mut p count es = b.try_slice_from_count p count es :=
  ⟨fun h1 h2 h3 => tsfc_some b p count es h1 h2 h3 hend,
   fun h => tsfc_none_low b p count es h,
   fun h1 h2 => tsfc_panics b p count es h1 h2,
   fun h1 h2 h3 => tsfc_none_out b p count es h1 h2 h3,
   tsfc_mut_eq b p count es⟩

/-- Witness for C3 amended on the 4-byte box at address 8: a successful
interior slice, a pointer below the base, an overflowing product, and an
out-of-range count. -/
theorem C3_amended_witness :
    VariableSizedBox.try_slice_from_count ⟨8, [0, 0, 0, 0]⟩ 10 1 2
        = PanicOr.ok (some (10, 1))
    ∧ VariableSizedBox.try_slice_from_count ⟨8, [0, 0, 0, 0]⟩ 3 1 2
        = PanicOr.ok none
    ∧ VariableSizedBox.try_slice_from_count ⟨8, [0, 0, 0, 0]⟩ 8 (2 ^ 63) 2
        = PanicOr.panics
    ∧ VariableSizedBox.try_slice_from_count ⟨8, [0, 0, 0, 0]⟩ 10 3 2
        = PanicOr.ok none :=
  ⟨(C3_amended_try_slice_characterization ⟨8, [0, 0, 0, 0]⟩ 10 1 2
      (by decide)).1 (by decide) (by decide) (by decide),
   (C3_amended_try_slice_characterization ⟨8, [0, 0, 0, 0]⟩ 3 1 2
      (by decide)).2.1 (by decide),
   (C3_amended_try_slice_characterization ⟨8, [0, 0, 0, 0]⟩ 8 (2 ^ 63) 2
      (by decide)).2.2.1 (by decide) (by decide),
   (C3_amended_try_slice_characterization ⟨8, [0, 0, 0, 0]⟩ 10 3 2
      (by decide)).2.2.2.1 (by decide) (by decide)
      (Or.inl (by decide))⟩

/-- C5 counterexample: the claim quantifies over every element type U,
but for a zero-sized U it fails.  Take the 1-byte box at address 8 with
byte 7, offset k = 1 and size_of::<U>() = 0: count = 3 satisfies
k + count * size_of = length, and the call with count one larger (4)
does not fail -- both the try variant and the panicking variant succeed
and return a slice of 4 elements. -/
theorem C5_counterexample :
    (1 + 3 * 0 = (VariableSizedBox.mk 8 [7]).size)
    ∧ VariableSizedBox.try_slice_from_count ⟨8, [7]⟩ 9 4 0
        = PanicOr.ok (some (9, 4))
    ∧ VariableSizedBox.slice_from_count ⟨8, [7]⟩ 9 4 0
        = PanicOr.ok (9, 4) := by
  refine ⟨rfl, ?_, ?_⟩ <;> decide

/-- C5 amended: the tail-coverage claim restricted to element types of
nonzero size.  For a nonempty box, offset k and count with
k + count * size_of = length, slice_from_count at as_ptr + k succeeds
with a slice of exactly count elements covering the tail; the same call
with count one element larger returns none from the try variant and
panics in the panicking variant. -/
theorem C5_amended_tail_slice (b : VariableSizedBox) (k count es : Nat)
    (hes : 0 < es) (_hL : 0 < b.size) (heq : k + count * es = b.size)
    (hend : b.as_ptr + b.size + es < USIZE) :
    b.try_slice_from_count (b.as_ptr + k) count es
        = .ok (some (b.as_ptr + k, count))
    ∧ b.try_slice_from_count (b.as_ptr + k) (count + 1) es = .ok none
    ∧ b.slice_from_count (b.as_ptr + k) (count + 1) es = .panics := by
  have h1 : b.as_ptr ≤ b.as_ptr + k := Nat.le_add_right _ _
  have hsucc : (count + 1) * es = count * es + es := Nat.succ_mul count es
  have htry : b.try_slice_from_count (b.as_ptr + k) (count + 1) es = .ok none := by
    apply tsfc_none_out b _ _ _ h1
    · omega
    · rcases Nat.lt_or_ge k es with hk | hk
      · exact Or.inl (by omega)
      · exact Or.inr (by omega)
  refine ⟨?_, htry, ?_⟩
  · exact tsfc_some b _ _ _ h1 (by omega) (by omega) (by omega)
  · rw [sfc_eq_unwrap, htry]

/-- Witness for C5 amended: box of 4 bytes at address 8, offset k = 2,
element size 2, count 1 (2 + 1 * 2 = 4). -/
theorem C5_amended_witness :
    VariableSizedBox.try_slice_from_count ⟨8, [1, 2, 3, 4]⟩ (8 + 2) 1 2
        = PanicOr.ok (some (8 + 2, 1))
    ∧ VariableSizedBox.try_slice_from_count ⟨8, [1, 2, 3, 4]⟩ (8 + 2) (1 + 1) 2
        = PanicOr.ok none
    ∧ VariableSizedBox.slice_from_count ⟨8, [1, 2, 3, 4]⟩ (8 + 2) (1 + 1) 2
        = PanicOr.panics :=
  C5_amended_tail_slice ⟨8, [1, 2, 3, 4]⟩ 2 1 2 (by decide) (by decide)
    (by decide) (by decide)

/-- C10 counterexample: the claim quantifies over every element type U,
but for a zero-sized U the byte-based accessors do not return a slice at
all -- the division bytes / size_of::<U>() is a division by zero and
panics.  On the 2-byte box at address 8 with pointer at the base and
byte count 2 (not a multiple of 0), both byte-based forms panic instead
of returning a slice. -/
theorem C10_counterexample :
    VariableSizedBox.try_slice_from_bytes ⟨8, [0, 0]⟩ 8 2 0 = PanicOr.panics
    ∧ VariableSizedBox.slice_from_bytes ⟨8, [0, 0]⟩ 8 2 0 = PanicOr.panics := by
  constructor <;> rfl

/-- C10 amended: for element types of nonzero size, the byte-based
accessors derive the element count as bytes / size_of by integer floor
division and delegate to the count-based forms, so a byte count that is
not a multiple of the element size silently loses its trailing
bytes % size_of bytes; in particular, when the floored range lies inside
the allocation the try form succeeds with exactly bytes / size_of
elements. -/
theorem C10_amended_bytes_floor_division (b : VariableSizedBox)
    (p bytes es : Nat) (hes : 0 < es) :
    b.try_slice_from_bytes p bytes es = b.try_slice_from_count p (bytes / es) es
    ∧ b.slice_from_bytes p bytes es = b.slice_from_count p (bytes / es) es
    ∧ b.try_slice_from_bytes_mut p bytes es
        = b.try_slice_from_count_mut p (bytes / es) es
    ∧ b.slice_from_bytes_mut p bytes es
        = b.slice_from_count_mut p (bytes / es) es
    ∧ (bytes / es) * es + bytes % es = bytes
    ∧ bytes % es < es
    ∧ (b.as_ptr ≤ p → (bytes / es) * es ≤ b.size →
        p + (bytes / es) * es ≤ b.as_ptr + b.size → b.as_ptr + b.size < USIZE →
        b.try_slice_from_bytes p bytes es = .ok (some (p, bytes / es))) := by
  have hes0 : es ≠ 0 := Nat.pos_iff_ne_zero.mp hes
  have hfl : bytes / es * es + bytes % es = bytes := by rw [Nat.mul_comm (bytes / es) es]; exact Nat.div_add_mod bytes es
  refine ⟨?_, ?_, ?_, ?_, hfl, Nat.mod_lt _ hes, ?_⟩
  · unfold VariableSizedBox.try_slice_from_bytes
    rw [if_neg hes0]
  · unfold VariableSizedBox.slice_from_bytes
    rw [if_neg hes0]
  · unfold VariableSizedBox.try_slice_from_bytes_mut
    rw [if_neg hes0]
  · unfold VariableSizedBox.slice_from_bytes_mut
    rw [if_neg hes0]
  · intro h1 h2 h3 hend
    unfold VariableSizedBox.try_slice_from_bytes
    rw [if_neg hes0]
    exact tsfc_some b p (bytes / es) es h1 h2 h3 hend

/-- Witness for C10 amended: 4-byte box at address 8, pointer at the
base, 3 bytes requested with element size 2: the slice has 3 / 2 = 1
element and the odd trailing byte is dropped. -/
theorem C10_amended_witness :
    VariableSizedBox.try_slice_from_bytes ⟨8, [0, 0, 0, 0]⟩ 8 3 2
        = VariableSizedBox.try_slice_from_count ⟨8, [0, 0, 0, 0]⟩ 8 (3 / 2) 2
    ∧ (3 / 2) * 2 + 3 % 2 = 3
    ∧ VariableSizedBox.try_slice_from_bytes ⟨8, [0, 0, 0, 0]⟩ 8 3 2
        = PanicOr.ok (some (8, 3 / 2)) :=
  ⟨(C10_amended_bytes_floor_division ⟨8, [0, 0, 0, 0]⟩ 8 3 2 (by decide)).1,
   (C10_amended_bytes_floor_division ⟨8, [0, 0, 0, 0]⟩ 8 3 2 (by decide)).2.2.2.2.1,
   (C10_amended_bytes_floor_division ⟨8, [0, 0, 0, 0]⟩ 8 3 2 (by decide)).2.2.2.2.2.2
     (by decide) (by decide) (by decide) (by decide)⟩

/-- C1: the reference-count discipline of ComPtr.  Adoption via
ComPtr::new or ComPtr::from_raw of a non-null pointer performs no AddRef
and no Release (both are pure functions of the pointer, with no effect
on the mock object) and wraps exactly that pointer; clone performs
exactly one AddRef and yields a wrapper over the same raw pointer; drop
performs exactly one Release; consequently a clone followed by its drop
returns the mock counter to its baseline apart from the matched
AddRef/Release pair, and adopting a reference produced by one external
AddRef and then dropping the wrapper returns the reference count to its
pre-test baseline. -/
theorem C1_refcount_discipline (s : MockObj) (p : Nat) (c : ComPtr)
    (hp : p ≠ 0) :
    ComPtr.new p = some ⟨p⟩
    ∧ ComPtr.from_raw p = .ok ⟨p⟩
    ∧ (ComPtr.clone s c).1.addRefs = s.addRefs + 1
    ∧ (ComPtr.clone s c).1.releases = s.releases
    ∧ (ComPtr.clone s c).2.raw = c.raw
    ∧ (ComPtr.drop s c).releases = s.releases + 1
    ∧ (ComPtr.drop s c).addRefs = s.addRefs
    ∧ ComPtr.drop (ComPtr.clone s c).1 (ComPtr.clone s c).2
        = { s with addRefs := s.addRefs + 1, releases := s.releases + 1 }
    ∧ (ComPtr.drop s.addRef ⟨p⟩).refs = s.refs := by
  unfold ComPtr.new ComPtr.from_raw ComPtr.clone ComPtr.drop
    MockObj.addRef MockObj.release
  rw [if_neg hp, if_neg hp]
  refine ⟨rfl, rfl, rfl, rfl, rfl, rfl, rfl, by simp, by simp⟩

/-- Witness for C1 on a mock object with one live reference, raw pointer
5 and an existing wrapper over pointer 7. -/
theorem C1_witness :
    ComPtr.new 5 = some ⟨5⟩
    ∧ ComPtr.from_raw 5 = .ok ⟨5⟩
    ∧ (ComPtr.clone ⟨1, 0, 0, 0⟩ ⟨7⟩).1.addRefs = 0 + 1
    ∧ (ComPtr.clone ⟨1, 0, 0, 0⟩ ⟨7⟩).1.releases = 0
    ∧ (ComPtr.clone ⟨1, 0, 0, 0⟩ ⟨7⟩).2.raw = ComPtr.raw ⟨7⟩
    ∧ (ComPtr.drop ⟨1, 0, 0, 0⟩ ⟨7⟩).releases = 0 + 1
    ∧ (ComPtr.drop ⟨1, 0, 0, 0⟩ ⟨7⟩).addRefs = 0
    ∧ ComPtr.drop (ComPtr.clone ⟨1, 0, 0, 0⟩ ⟨7⟩).1 (ComPtr.clone ⟨1, 0, 0, 0⟩ ⟨7⟩).2
        = { refs := 1, addRefs := 0 + 1, releases := 0 + 1, warnings := 0 }
    ∧ (ComPtr.drop (MockObj.addRef ⟨1, 0, 0, 0⟩) ⟨5⟩).refs = 1 :=
  C1_refcount_discipline ⟨1, 0, 0, 0⟩ 5 ⟨7⟩ (by decide)

/-- C2: when the initializer passed to ComPtr::from_fn returns a nonzero
status after writing a non-null pointer into the output slot, from_fn
returns Err carrying exactly that status, issues exactly one Release on
the leaked pointer (the reference count drops by one), performs no
AddRef of its own, and emits exactly one diagnostic. -/
theorem C2_failure_releases_leaked_slot (F : MockObj → MockObj × Int × Nat)
    (s : MockObj) (hst : (F s).2.1 ≠ 0) (hslot : (F s).2.2 ≠ 0) :
    (ComPtr.from_fn F s).2 = .ok (.error (F s).2.1)
    ∧ (ComPtr.from_fn F s).1.releases = (F s).1.releases + 1
    ∧ (ComPtr.from_fn F s).1.refs = (F s).1.refs - 1
    ∧ (ComPtr.from_fn F s).1.addRefs = (F s).1.addRefs
    ∧ (ComPtr.from_fn F s).1.warnings = (F s).1.warnings + 1 := by
  unfold ComPtr.from_fn ComPtr.new ComPtr.drop MockObj.warn MockObj.release
  simp [hslot, hst]

/-- Witness for C2: an initializer returning status -5 after setting the
slot to 42, run against a mock object holding one reference. -/
theorem C2_witness :
    (ComPtr.from_fn (fun s => (s, -5, 42)) ⟨1, 0, 0, 0⟩).2
        = .ok (.error (-5))
    ∧ (ComPtr.from_fn (fun s => (s, -5, 42)) ⟨1, 0, 0, 0⟩).1.releases = 0 + 1
    ∧ (ComPtr.from_fn (fun s => (s, -5, 42)) ⟨1, 0, 0, 0⟩).1.refs = 1 - 1
    ∧ (ComPtr.from_fn (fun s => (s, -5, 42)) ⟨1, 0, 0, 0⟩).1.addRefs = 0
    ∧ (ComPtr.from_fn (fun s => (s, -5, 42)) ⟨1, 0, 0, 0⟩).1.warnings = 0 + 1 :=
  C2_failure_releases_leaked_slot (fun s => (s, -5, 42)) ⟨1, 0, 0, 0⟩
    (by decide) (by decide)

/-- C8: the status returned by the initializer determines the shape of
the from_fn result.  A zero status with a non-null slot yields Ok over
that slot; a zero status with a null slot is a fatal contract violation
(the expect panics); any nonzero status -- positive or negative -- is
surfaced unchanged as Err; and an Ok result occurs exactly when the
status is zero and the slot was set. -/
theorem C8_status_determines_result (F : MockObj → MockObj × Int × Nat)
    (s : MockObj) :
    ((F s).2.1 = 0 → (F s).2.2 ≠ 0 →
      (ComPtr.from_fn F s).2 = .ok (.ok ⟨(F s).2.2⟩))
    ∧ ((F s).2.1 = 0 → (F s).2.2 = 0 → (ComPtr.from_fn F s).2 = .panics)
    ∧ ((F s).2.1 ≠ 0 → (ComPtr.from_fn F s).2 = .ok (.error (F s).2.1))
    ∧ ((∃ c, (ComPtr.from_fn F s).2 = .ok (.ok c))
        ↔ (F s).2.1 = 0 ∧ (F s).2.2 ≠ 0) := by
  by_cases hslot : (F s).2.2 = 0 <;> by_cases hst : (F s).2.1 = 0 <;>
    unfold ComPtr.from_fn ComPtr.new ComPtr.drop <;>
    simp [hslot, hst]

/-- Witness for C8: a succeeding initializer (status 0, slot 7) and the
three result shapes at concrete inputs via the other conjuncts. -/
theorem C8_witness :
    (ComPtr.from_fn (fun s => (s, 0, 7)) ⟨1, 0, 0, 0⟩).2 = .ok (.ok ⟨7⟩)
    ∧ (ComPtr.from_fn (fun s => (s, 0, 0)) ⟨1, 0, 0, 0⟩).2 = .panics
    ∧ (ComPtr.from_fn (fun s => (s, 3, 0)) ⟨1, 0, 0, 0⟩).2 = .ok (.error 3)
    ∧ ((∃ c, (ComPtr.from_fn (fun s => (s, 0, 7)) ⟨1, 0, 0, 0⟩).2 = .ok (.ok c))
        ↔ (0 : Int) = 0 ∧ (7 : Nat) ≠ 0) :=
  ⟨(C8_status_determines_result (fun s => (s, 0, 7)) ⟨1, 0, 0, 0⟩).1
      (by decide) (by decide),
   (C8_status_determines_result (fun s => (s, 0, 0)) ⟨1, 0, 0, 0⟩).2.1
      (by decide) (by decide),
   (C8_status_determines_result (fun s => (s, 3, 0)) ⟨1, 0, 0, 0⟩).2.2.1
      (by decide),
   (C8_status_determines_result (fun s => (s, 0, 7)) ⟨1, 0, 0, 0⟩).2.2.2⟩

end Wio
